import Mathlib

set_option maxHeartbeats 1000000

/- Verification of the image-layout core of mesa-panfork
   (src/src/panfrost/lib/pan_layout.c).

   The C code is shallowly embedded: C `unsigned` values are modelled by `Nat`
   (the algorithm is pure size/offset arithmetic on small quantities and the
   properties under study are about the unbounded arithmetic the code
   implements), the in-place mutation of `struct pan_image_layout *layout`
   is modelled by explicit state passing, and the per-level `for` loop of
   `pan_image_layout_init` becomes structural recursion on the number of
   remaining levels.  Pixel formats are opaque to this file's source except
   for the two queries `util_format_get_blocksize` and
   `util_format_is_compressed`, so a format is modelled as the pair of those
   two attributes. -/

/-- Mali texture dimension selector (`enum mali_texture_dimension`). -/
inductive mali_texture_dimension
  | dim_1d
  | dim_2d
  | dim_3d
  | dim_cube
deriving DecidableEq

/-- Checksum (transaction elimination) mode (`enum pan_image_crc_mode`). -/
inductive pan_image_crc_mode
  | crc_none
  | crc_inband
  | crc_oob
deriving DecidableEq

/-- AFBC superblock-size field of an AFBC modifier
(`AFBC_FORMAT_MOD_BLOCK_SIZE_16x16/32x8/64x4`). -/
inductive AfbcBlockSize
  | sz16x16
  | sz32x8
  | sz64x4
deriving DecidableEq

/-- DRM format modifier, restricted to the modifiers this driver supports
(`pan_best_modifiers`): linear, 16x16 block u-interleaved, and AFBC with a
superblock size plus the YTR / SPARSE flag bits. -/
inductive DrmModifier
  | linear
  | uInterleaved
  | afbc (block_size : AfbcBlockSize) (ytr : Bool) (sparse : Bool)
deriving DecidableEq

/-- `drm_is_afbc` from pan_texture.h: whether a modifier is an AFBC one. -/
def drm_is_afbc : DrmModifier → Bool
  | .afbc _ _ _ => true
  | _ => false

/-- `struct pan_block_size`. -/
structure pan_block_size where
  width : Nat
  height : Nat
deriving DecidableEq

/-- Table of AFBC superblock sizes (`afbc_superblock_sizes`). -/
def afbc_superblock_sizes : AfbcBlockSize → pan_block_size
  | .sz16x16 => ⟨16, 16⟩
  | .sz32x8 => ⟨32, 8⟩
  | .sz64x4 => ⟨64, 4⟩

/-- `panfrost_afbc_superblock_size`.  The C function asserts
`drm_is_afbc(modifier)`; for non-AFBC modifiers (a precondition violation)
we return an arbitrary value, which is never used by the call sites below. -/
def panfrost_afbc_superblock_size (modifier : DrmModifier) : pan_block_size :=
  match modifier with
  | .afbc bs _ _ => afbc_superblock_sizes bs
  | _ => ⟨16, 16⟩

/-- `panfrost_afbc_superblock_width`. -/
def panfrost_afbc_superblock_width (modifier : DrmModifier) : Nat :=
  (panfrost_afbc_superblock_size modifier).width

/-- `panfrost_afbc_superblock_height`. -/
def panfrost_afbc_superblock_height (modifier : DrmModifier) : Nat :=
  (panfrost_afbc_superblock_size modifier).height

/-- `panfrost_block_dim`.  The C function asserts that a non-AFBC modifier is
`DRM_FORMAT_MOD_ARM_16X16_BLOCK_U_INTERLEAVED` and returns 16 there. -/
def panfrost_block_dim (modifier : DrmModifier) (width : Bool) : Nat :=
  if !drm_is_afbc modifier then 16
  else if width then panfrost_afbc_superblock_width modifier
  else panfrost_afbc_superblock_height modifier

/-- `ALIGN_POT(x, a)` from util/macros.h, for a power-of-two `a`:
`(x + a - 1) & ~(a - 1)`, which on unbounded naturals equals rounding up to
the next multiple of `a`. -/
def ALIGN_POT (x pot : Nat) : Nat :=
  (x + pot - 1) / pot * pot

/-- `DIV_ROUND_UP(a, b)` from util/macros.h: ceiling division. -/
def DIV_ROUND_UP (a b : Nat) : Nat :=
  (a + b - 1) / b

/-- `u_minify(value, levels)` from util/u_math.h: `MAX2(1, value >> levels)`. -/
def u_minify (value levels : Nat) : Nat :=
  max 1 (value >>> levels)

/-- Logical width/height/depth of mip level `l` of a base extent `v`: the
source halves (`u_minify(v, 1)`) the extent after emitting each level, so
level `l` sees `v` minified `l` times (which is `v` itself at level 0). -/
def mipSize (v : Nat) : Nat → Nat
  | 0 => v
  | k + 1 => u_minify (mipSize v k) 1

/-- A pixel format, reduced to the two attributes this file queries. -/
structure pipe_format where
  blocksize : Nat := 0
  is_compressed : Bool := false
deriving DecidableEq

/-- `util_format_get_blocksize` (bytes per pixel / block). -/
def util_format_get_blocksize (format : pipe_format) : Nat :=
  format.blocksize

/-- `util_format_is_compressed`. -/
def util_format_is_compressed (format : pipe_format) : Bool :=
  format.is_compressed

/-- Checksum tile geometry (pan_layout.c lines 116-118). -/
def CHECKSUM_TILE_WIDTH : Nat := 16

/-- Checksum tile height. -/
def CHECKSUM_TILE_HEIGHT : Nat := 16

/-- Bytes consumed per 16x16 checksum tile. -/
def CHECKSUM_BYTES_PER_TILE : Nat := 8

/-- `AFBC_HEADER_BYTES_PER_TILE` from pan_texture.h. -/
def AFBC_HEADER_BYTES_PER_TILE : Nat := 16

/-- Modelled from the spec: `panfrost_afbc_header_size` lives in
pan_texture.h, which is not part of src/.  Spec §4.3 step 5 says the header
size is computed "from unaligned width/height via a
fixed-bytes-per-superblock-tile formula", i.e. a fixed byte count per 16x16
superblock tile with ceiling division on both axes. -/
def panfrost_afbc_header_size (width height : Nat) : Nat :=
  DIV_ROUND_UP width 16 * DIV_ROUND_UP height 16 * AFBC_HEADER_BYTES_PER_TILE

/-- Per-level checksum sub-record (`slice->crc`). -/
structure pan_slice_crc where
  offset : Nat := 0
  stride : Nat := 0
  size : Nat := 0
deriving DecidableEq

/-- Per-level AFBC sub-record (`slice->afbc`). -/
structure pan_slice_afbc where
  header_size : Nat := 0
  row_stride : Nat := 0
  surface_stride : Nat := 0
  body_size : Nat := 0
deriving DecidableEq

/-- `struct pan_image_slice_layout`: the per-mip-level layout record. -/
structure pan_image_slice_layout where
  offset : Nat := 0
  line_stride : Nat := 0
  row_stride : Nat := 0
  surface_stride : Nat := 0
  afbc : pan_slice_afbc := {}
  size : Nat := 0
  crc : pan_slice_crc := {}
deriving DecidableEq

/-- `struct pan_image_layout`.  The C structure holds a fixed array
`slices[MAX_MIP_LEVELS]`; we model it as a list, and theorems that look at
written slices assume the list is long enough (`nr_slices ≤ length`), which
is the C-side contract `nr_slices <= MAX_MIP_LEVELS`. -/
structure pan_image_layout where
  modifier : DrmModifier := .linear
  format : pipe_format := {}
  dim : mali_texture_dimension := .dim_1d
  width : Nat := 0
  height : Nat := 0
  depth : Nat := 0
  array_size : Nat := 0
  nr_samples : Nat := 0
  nr_slices : Nat := 0
  crc_mode : pan_image_crc_mode := .crc_none
  slices : List pan_image_slice_layout := []
  array_stride : Nat := 0
  data_size : Nat := 0
  crc_size : Nat := 0
deriving DecidableEq

/-- `struct pan_image_explicit_layout`: caller-supplied offset and stride. -/
structure pan_image_explicit_layout where
  offset : Nat := 0
  line_stride : Nat := 0
deriving DecidableEq

/-- The all-zero slice record, used as the out-of-range default when reading
the slice array. -/
def sliceZero : pan_image_slice_layout := {}

/-- Read `layout->slices[l]`. -/
def getSlice (layout : pan_image_layout) (l : Nat) : pan_image_slice_layout :=
  layout.slices.getD l sliceZero

/-- Write `layout->slices[l]`. -/
def setSlice (layout : pan_image_layout) (l : Nat) (sl : pan_image_slice_layout) :
    pan_image_layout :=
  { layout with slices := layout.slices.set l sl }

/-- `panfrost_compute_checksum_size` (pan_layout.c lines 120-132).  The C
function writes `slice->crc.stride` through its pointer argument and returns
the total size; we return the updated slice together with the size. -/
def panfrost_compute_checksum_size (slice : pan_image_slice_layout)
    (width height : Nat) : pan_image_slice_layout × Nat :=
  let tile_count_x := DIV_ROUND_UP width CHECKSUM_TILE_WIDTH
  let tile_count_y := DIV_ROUND_UP height CHECKSUM_TILE_HEIGHT
  let slice := { slice with
    crc := { slice.crc with stride := tile_count_x * CHECKSUM_BYTES_PER_TILE } }
  (slice, slice.crc.stride * tile_count_y)

/-- `panfrost_get_layer_stride` (pan_layout.c lines 134-144). -/
def panfrost_get_layer_stride (layout : pan_image_layout) (level : Nat) : Nat :=
  if layout.dim ≠ .dim_3d then layout.array_stride
  else if drm_is_afbc layout.modifier then (getSlice layout level).afbc.surface_stride
  else (getSlice layout level).surface_stride

/-- `panfrost_texture_offset` (pan_layout.c lines 149-157). -/
def panfrost_texture_offset (layout : pan_image_layout)
    (level array_idx surface_idx : Nat) : Nat :=
  (getSlice layout level).offset + array_idx * layout.array_stride +
    surface_idx * (getSlice layout level).surface_stride

/-- The parameters of a `pan_image_layout_init` call (the unused `dev`
parameter of the C function is omitted). -/
structure LayoutInitArgs where
  modifier : DrmModifier
  format : pipe_format
  dim : mali_texture_dimension
  width : Nat
  height : Nat
  depth : Nat
  array_size : Nat
  nr_samples : Nat
  nr_slices : Nat
  crc_mode : pan_image_crc_mode
  explicit_layout : Option pan_image_explicit_layout

/-- `bool afbc = drm_is_afbc(layout->modifier)`. -/
def LayoutInitArgs.afbc (a : LayoutInitArgs) : Bool :=
  drm_is_afbc a.modifier

/-- `bool tiled = layout->modifier == DRM_FORMAT_MOD_ARM_16X16_BLOCK_U_INTERLEAVED`. -/
def LayoutInitArgs.tiled (a : LayoutInitArgs) : Bool :=
  a.modifier == .uInterleaved

/-- `bool linear = layout->modifier == DRM_FORMAT_MOD_LINEAR`. -/
def LayoutInitArgs.isLinear (a : LayoutInitArgs) : Bool :=
  a.modifier == .linear

/-- `bool should_align = tiled || afbc`. -/
def LayoutInitArgs.should_align (a : LayoutInitArgs) : Bool :=
  a.tiled || a.afbc

/-- `bool is_3d = layout->dim == MALI_TEXTURE_DIMENSION_3D`. -/
def LayoutInitArgs.is_3d (a : LayoutInitArgs) : Bool :=
  a.dim == .dim_3d

/-- `tile_w` (pan_layout.c lines 209-216): 1 unless tiled or AFBC. -/
def LayoutInitArgs.tile_w (a : LayoutInitArgs) : Nat :=
  if a.tiled || a.afbc then panfrost_block_dim a.modifier true else 1

/-- `tile_h`. -/
def LayoutInitArgs.tile_h (a : LayoutInitArgs) : Nat :=
  if a.tiled || a.afbc then panfrost_block_dim a.modifier false else 1

/-- `tile_shift`: 2 when the pixel format is itself block-compressed and the
layout is tiled or AFBC, else 0. -/
def LayoutInitArgs.tile_shift (a : LayoutInitArgs) : Nat :=
  if (a.tiled || a.afbc) && util_format_is_compressed a.format then 2 else 0

/-- `effective_width` of a level of current width `w`
(pan_layout.c lines 221-230). -/
def effectiveWidth (a : LayoutInitArgs) (w : Nat) : Nat :=
  if a.should_align then ALIGN_POT w a.tile_w >>> a.tile_shift else w

/-- `effective_height` of a level of current height `h`. -/
def effectiveHeight (a : LayoutInitArgs) (h : Nat) : Nat :=
  if a.should_align then ALIGN_POT h a.tile_h >>> a.tile_shift else h

/-- The mutable state of the level loop of `pan_image_layout_init`: the
layout being written, the running byte offset, the out-of-band checksum
running offset, and the current (progressively minified) extent. -/
structure LoopState where
  layout : pan_image_layout
  offset : Nat
  oob_crc_offset : Nat
  width : Nat
  height : Nat
  depth : Nat
deriving DecidableEq

/-- The explicit-stride validation of one loop iteration
(pan_layout.c line 244): with an explicit layout, fail when the caller's
line stride is below the raw stride `bytes_per_pixel * effective_width`. -/
def layoutStepFails (a : LayoutInitArgs) (s : LoopState) : Bool :=
  match a.explicit_layout with
  | some e =>
      decide (e.line_stride < util_format_get_blocksize a.format * effectiveWidth a s.width)
  | none => false

/-- The successful body of one iteration of the level loop
(pan_layout.c lines 218-315), producing the written slice, the new running
offset and the new out-of-band checksum offset.  Field writes follow the
source order; the explicit-stride failure check is factored out into
`layoutStepFails`. -/
def layoutStepSlice (a : LayoutInitArgs) (slice0 : pan_image_slice_layout)
    (s : LoopState) : pan_image_slice_layout × Nat × Nat :=
  let effective_width := effectiveWidth a s.width
  let effective_height := effectiveHeight a s.height
  let effective_depth := s.depth
  let offset0 := ALIGN_POT s.offset 64
  let stride :=
    match a.explicit_layout with
    | some e => e.line_stride
    | none =>
        let raw := util_format_get_blocksize a.format * effective_width
        if a.isLinear then ALIGN_POT raw 64 else raw
  let sliceA : pan_image_slice_layout :=
    { slice0 with
      offset := offset0
      line_stride := stride
      row_stride := stride * (a.tile_h >>> a.tile_shift) }
  let one0 := stride * effective_height
  let afbcRes : pan_image_slice_layout × Nat × Nat :=
    if a.afbc then
      let header_size := panfrost_afbc_header_size s.width s.height
      let hdr_row_stride := effective_width / a.tile_w * AFBC_HEADER_BYTES_PER_TILE
      if a.is_3d then
        ({ sliceA with afbc :=
            { header_size := header_size * effective_depth
              row_stride := hdr_row_stride
              surface_stride := header_size
              body_size := one0 * effective_depth } },
         one0, offset0 + header_size * effective_depth)
      else
        ({ sliceA with afbc :=
            { header_size := header_size
              row_stride := hdr_row_stride
              surface_stride := one0 + header_size
              body_size := one0 } },
         one0 + header_size, offset0)
    else (sliceA, one0, offset0)
  let sliceB := afbcRes.1
  let one := afbcRes.2.1
  let offset1 := afbcRes.2.2
  let full := one * effective_depth * a.nr_samples
  let sliceC := { sliceB with surface_stride := one, size := full }
  let offset2 := offset1 + full
  if a.crc_mode ≠ .crc_none then
    let cres := panfrost_compute_checksum_size sliceC s.width s.height
    let sliceD := { cres.1 with crc := { cres.1.crc with size := cres.2 } }
    if a.crc_mode = .crc_inband then
      ({ sliceD with
          crc := { sliceD.crc with offset := offset2 }
          size := sliceD.size + cres.2 },
       offset2 + cres.2, s.oob_crc_offset)
    else
      ({ sliceD with crc := { sliceD.crc with offset := s.oob_crc_offset } },
       offset2, s.oob_crc_offset + cres.2)
  else (sliceC, offset2, s.oob_crc_offset)

/-- One iteration of the level loop for level `l`.  On failure the function
has already written the level's offset (pan_layout.c line 237 precedes the
`return false` at line 245), which the failure state records. -/
def layoutStep (a : LayoutInitArgs) (l : Nat) (s : LoopState) : Bool × LoopState :=
  if layoutStepFails a s then
    (false,
      { s with
        layout := setSlice s.layout l { getSlice s.layout l with offset := ALIGN_POT s.offset 64 }
        offset := ALIGN_POT s.offset 64 })
  else
    let res := layoutStepSlice a (getSlice s.layout l) s
    (true,
      { layout := setSlice s.layout l res.1
        offset := res.2.1
        oob_crc_offset := res.2.2
        width := u_minify s.width 1
        height := u_minify s.height 1
        depth := u_minify s.depth 1 })

/-- The level loop `for (l = 0; l < nr_slices; ++l)`, as recursion on the
number of remaining levels (`r`), with `l` the next level index. -/
def layoutLoop (a : LayoutInitArgs) : Nat → Nat → LoopState → Bool × LoopState
  | 0, _, s => (true, s)
  | r + 1, l, s =>
      let p := layoutStep a l s
      if p.1 then layoutLoop a r (l + 1) p.2 else (false, p.2)

/-- The state sequence of the level loop: `loopStates a l s k` is the state
after `k` iterations starting at level `l` in state `s` (following the
second component of each step regardless of its success flag; the lemmas
below that use it are conditioned on every step succeeding). -/
def loopStates (a : LayoutInitArgs) (l : Nat) (s : LoopState) : Nat → LoopState
  | 0 => s
  | k + 1 => (layoutStep a (l + k) (loopStates a l s k)).2

/-- Bundle the call parameters of `pan_image_layout_init`. -/
def layoutInitArgs (modifier : DrmModifier) (format : pipe_format)
    (dim : mali_texture_dimension) (width height depth array_size nr_samples nr_slices : Nat)
    (crc_mode : pan_image_crc_mode)
    (explicit_layout : Option pan_image_explicit_layout) : LayoutInitArgs :=
  ⟨modifier, format, dim, width, height, depth, array_size, nr_samples, nr_slices,
   crc_mode, explicit_layout⟩

/-- The first rejection check of `pan_image_layout_init`
(pan_layout.c lines 173-177). -/
def explicitReject1 (dim : mali_texture_dimension)
    (depth array_size nr_samples nr_slices : Nat) (crc_mode : pan_image_crc_mode)
    (explicit_layout : Option pan_image_explicit_layout) : Bool :=
  explicit_layout.isSome &&
    (decide (1 < depth) || decide (1 < nr_samples) || decide (1 < array_size) ||
     dim != .dim_2d || decide (1 < nr_slices) || crc_mode == .crc_inband)

/-- The second rejection check (pan_layout.c lines 180-181):
`explicit_layout->offset & 63`, i.e. the offset is not 64-byte aligned. -/
def explicitReject2 (explicit_layout : Option pan_image_explicit_layout) : Bool :=
  match explicit_layout with
  | some e => decide (e.offset % 64 ≠ 0)
  | none => false

/-- The scalar header fields written at pan_layout.c lines 183-192, and the
initial loop state (running offset from the explicit layout if any,
out-of-band checksum offset 0, base extent). -/
def layoutInitStartState (layout0 : pan_image_layout) (modifier : DrmModifier)
    (format : pipe_format) (dim : mali_texture_dimension)
    (width height depth array_size nr_samples nr_slices : Nat)
    (crc_mode : pan_image_crc_mode)
    (explicit_layout : Option pan_image_explicit_layout) : LoopState :=
  { layout :=
      { layout0 with
        crc_mode := crc_mode
        modifier := modifier
        format := format
        dim := dim
        width := width
        height := height
        depth := depth
        array_size := array_size
        nr_samples := nr_samples
        nr_slices := nr_slices }
    offset :=
      match explicit_layout with
      | some e => e.offset
      | none => 0
    oob_crc_offset := 0
    width := width
    height := height
    depth := depth }

/-- `pan_image_layout_init` (pan_layout.c lines 159-326).  The C function
mutates `*layout` and returns a `bool`; we take the pre-call layout
`layout0` and return the success flag together with the post-call layout
(on the early rejections the C function returns before writing anything, so
the layout is returned unchanged; on the in-loop stride rejection the
partially written layout is returned). -/
def pan_image_layout_init (layout0 : pan_image_layout) (modifier : DrmModifier)
    (format : pipe_format) (dim : mali_texture_dimension)
    (width height depth array_size nr_samples nr_slices : Nat)
    (crc_mode : pan_image_crc_mode)
    (explicit_layout : Option pan_image_explicit_layout) :
    Bool × pan_image_layout :=
  if explicitReject1 dim depth array_size nr_samples nr_slices crc_mode explicit_layout then
    (false, layout0)
  else if explicitReject2 explicit_layout then
    (false, layout0)
  else
    let a := layoutInitArgs modifier format dim width height depth array_size
      nr_samples nr_slices crc_mode explicit_layout
    let s0 := layoutInitStartState layout0 modifier format dim width height depth
      array_size nr_samples nr_slices crc_mode explicit_layout
    let res := layoutLoop a nr_slices 0 s0
    if res.1 then
      let array_stride := ALIGN_POT res.2.offset 64
      let data_size :=
        match explicit_layout with
        | some _ => res.2.offset
        | none => ALIGN_POT (array_stride * array_size) 4096
      (true,
        { res.2.layout with
          array_stride := array_stride
          data_size := data_size
          crc_size := res.2.oob_crc_offset })
    else (false, res.2.layout)

/-- A texture view over a layout (`struct pan_image_view`), reduced to the
fields `pan_iview_get_surface` reads: the layout, the GPU base address
`image->data.bo->ptr.gpu + image->data.offset`, and the first level/layer. -/
structure pan_image_view where
  layout : pan_image_layout
  base : Nat
  first_level : Nat
  first_layer : Nat

/-- `struct pan_surface`: either a plain data address or an AFBC
header/body address pair. -/
inductive pan_surface
  | afbc (header body : Nat)
  | data (addr : Nat)
deriving DecidableEq

/-- The header address of a surface (the data address for plain surfaces);
a projection used to state address-arithmetic properties. -/
def surfHeaderAddr : pan_surface → Nat
  | .afbc header _ => header
  | .data addr => addr

/-- The body address of a surface (the data address for plain surfaces). -/
def surfBodyAddr : pan_surface → Nat
  | .afbc _ body => body
  | .data addr => addr

/-- `pan_iview_get_surface` (pan_layout.c lines 328-368). -/
def pan_iview_get_surface (iview : pan_image_view) (level layer sample : Nat) :
    pan_surface :=
  let level := level + iview.first_level
  let layer := layer + iview.first_layer
  let is_3d := iview.layout.dim == .dim_3d
  let slice := getSlice iview.layout level
  let base := iview.base
  if drm_is_afbc iview.layout.modifier then
    if is_3d then
      .afbc (base + slice.offset + layer * slice.afbc.surface_stride)
            (base + slice.offset + slice.afbc.header_size + slice.surface_stride * layer)
    else
      let header := base + panfrost_texture_offset iview.layout level layer 0
      .afbc header (header + slice.afbc.header_size)
  else
    let array_idx := if is_3d then 0 else layer
    let surface_idx := if is_3d then layer else sample
    .data (base + panfrost_texture_offset iview.layout level array_idx surface_idx)

/-- The extra bytes the running offset advances past, beyond the slice's own
`size`, at one level: the front-loaded headers of a 3D AFBC level
(pan_layout.c line 280), zero otherwise. -/
def afbc3dExtra (a : LayoutInitArgs) (sl : pan_image_slice_layout) : Nat :=
  if a.afbc && a.is_3d then sl.afbc.header_size else 0

/- ------------------------------------------------------------------ -/
/- Helper lemmas: alignment arithmetic and slice-array access.        -/
/- ------------------------------------------------------------------ -/

theorem ALIGN_POT_le (x a : Nat) (ha : 0 < a) : x ≤ ALIGN_POT x a := by
  have h := @Nat.lt_div_mul_add (x + a - 1) a ha
  unfold ALIGN_POT
  generalize (x + a - 1) / a * a = q at h ⊢
  omega

theorem ALIGN_POT_dvd (x a : Nat) : a ∣ ALIGN_POT x a :=
  dvd_mul_left a ((x + a - 1) / a)

theorem ALIGN_POT_eq_of_dvd (x a : Nat) (ha : 0 < a) (h : a ∣ x) :
    ALIGN_POT x a = x := by
  obtain ⟨c, rfl⟩ := h
  unfold ALIGN_POT
  have h1 : a * c + a - 1 = a * c + (a - 1) := by omega
  rw [h1, Nat.mul_add_div ha, Nat.div_eq_of_lt (by omega), Nat.add_zero, Nat.mul_comm]

theorem List_getD_set_self {α : Type} (l : List α) :
    ∀ (i : Nat) (x d : α), i < l.length → (l.set i x).getD i d = x := by
  induction l with
  | nil => intro i x d h; simp at h
  | cons a as ih =>
      intro i x d h
      cases i with
      | zero => simp
      | succ j => simpa using ih j x d (by simpa using h)

theorem List_getD_set_ne {α : Type} (l : List α) :
    ∀ (i j : Nat) (x d : α), i ≠ j → (l.set i x).getD j d = l.getD j d := by
  induction l with
  | nil => intro i j x d _; simp
  | cons a as ih =>
      intro i j x d h
      cases i with
      | zero =>
          cases j with
          | zero => exact absurd rfl h
          | succ m => simp
      | succ n =>
          cases j with
          | zero => simp
          | succ m => simpa using ih n m x d (by omega)

theorem getSlice_setSlice_self (L : pan_image_layout) (l : Nat)
    (sl : pan_image_slice_layout) (h : l < L.slices.length) :
    getSlice (setSlice L l sl) l = sl :=
  List_getD_set_self L.slices l sl sliceZero h

theorem getSlice_setSlice_ne (L : pan_image_layout) (l i : Nat)
    (sl : pan_image_slice_layout) (h : l ≠ i) :
    getSlice (setSlice L l sl) i = getSlice L i :=
  List_getD_set_ne L.slices l i sl sliceZero h

theorem setSlice_slices_length (L : pan_image_layout) (l : Nat)
    (sl : pan_image_slice_layout) :
    (setSlice L l sl).slices.length = L.slices.length := by
  simp [setSlice]

/- ------------------------------------------------------------------ -/
/- Helper lemmas: one loop iteration.                                 -/
/- ------------------------------------------------------------------ -/

theorem layoutStep_fst (a : LayoutInitArgs) (l : Nat) (s : LoopState) :
    (layoutStep a l s).1 = !layoutStepFails a s := by
  unfold layoutStep
  split <;> simp_all

theorem layoutStep_snd_of_ok (a : LayoutInitArgs) (l : Nat) (s : LoopState)
    (h : layoutStepFails a s = false) :
    (layoutStep a l s).2 =
      { layout := setSlice s.layout l (layoutStepSlice a (getSlice s.layout l) s).1
        offset := (layoutStepSlice a (getSlice s.layout l) s).2.1
        oob_crc_offset := (layoutStepSlice a (getSlice s.layout l) s).2.2
        width := u_minify s.width 1
        height := u_minify s.height 1
        depth := u_minify s.depth 1 } := by
  simp [layoutStep, h]

theorem layoutStep_getSlice_ne (a : LayoutInitArgs) (l : Nat) (s : LoopState)
    (i : Nat) (h : l ≠ i) :
    getSlice ((layoutStep a l s).2).layout i = getSlice s.layout i := by
  unfold layoutStep
  split
  · exact getSlice_setSlice_ne _ _ _ _ h
  · exact getSlice_setSlice_ne _ _ _ _ h

theorem layoutStep_slices_length (a : LayoutInitArgs) (l : Nat) (s : LoopState) :
    ((layoutStep a l s).2).layout.slices.length = s.layout.slices.length := by
  unfold layoutStep
  split <;> simp [setSlice]

theorem layoutStep_layout_dim (a : LayoutInitArgs) (l : Nat) (s : LoopState) :
    ((layoutStep a l s).2).layout.dim = s.layout.dim := by
  unfold layoutStep
  split <;> simp [setSlice]

theorem layoutStep_layout_modifier (a : LayoutInitArgs) (l : Nat) (s : LoopState) :
    ((layoutStep a l s).2).layout.modifier = s.layout.modifier := by
  unfold layoutStep
  split <;> simp [setSlice]

theorem layoutStepSlice_offset (a : LayoutInitArgs) (sl0 : pan_image_slice_layout)
    (s : LoopState) :
    (layoutStepSlice a sl0 s).1.offset = ALIGN_POT s.offset 64 := by
  cases hx : a.explicit_layout <;> cases hafbc : a.afbc <;> cases h3 : a.is_3d <;>
    cases hc : a.crc_mode <;>
      simp [layoutStepSlice, panfrost_compute_checksum_size, hx, hafbc, h3, hc]

theorem layoutStepSlice_advance (a : LayoutInitArgs) (sl0 : pan_image_slice_layout)
    (s : LoopState) :
    (layoutStepSlice a sl0 s).2.1 =
      ALIGN_POT s.offset 64 + afbc3dExtra a (layoutStepSlice a sl0 s).1 +
        (layoutStepSlice a sl0 s).1.size := by
  cases hx : a.explicit_layout <;> cases hafbc : a.afbc <;> cases h3 : a.is_3d <;>
    cases hc : a.crc_mode <;>
      simp [layoutStepSlice, panfrost_compute_checksum_size, afbc3dExtra,
        hx, hafbc, h3, hc] <;> ring

theorem layoutStepSlice_line_stride_linear (a : LayoutInitArgs)
    (sl0 : pan_image_slice_layout) (s : LoopState)
    (hmod : a.modifier = .linear) (hx : a.explicit_layout = none) :
    (layoutStepSlice a sl0 s).1.line_stride =
      ALIGN_POT (util_format_get_blocksize a.format * s.width) 64 := by
  cases hc : a.crc_mode <;>
    simp [layoutStepSlice, panfrost_compute_checksum_size, effectiveWidth,
      LayoutInitArgs.afbc, LayoutInitArgs.tiled, LayoutInitArgs.isLinear,
      LayoutInitArgs.should_align, drm_is_afbc, hmod, hx, hc]

theorem layoutStepSlice_afbc3d_header (a : LayoutInitArgs)
    (sl0 : pan_image_slice_layout) (s : LoopState)
    (hafbc : a.afbc = true) (h3 : a.is_3d = true) :
    (layoutStepSlice a sl0 s).1.afbc.header_size =
      (layoutStepSlice a sl0 s).1.afbc.surface_stride * s.depth ∧
    (layoutStepSlice a sl0 s).1.afbc.surface_stride =
      panfrost_afbc_header_size s.width s.height := by
  cases hx : a.explicit_layout <;> cases hc : a.crc_mode <;>
    simp [layoutStepSlice, panfrost_compute_checksum_size, hx, hafbc, h3, hc]

theorem layoutStepSlice_size_plain (a : LayoutInitArgs)
    (sl0 : pan_image_slice_layout) (s : LoopState)
    (hafbc : a.afbc = false) (hc : a.crc_mode ≠ .crc_inband) :
    (layoutStepSlice a sl0 s).1.size =
      (layoutStepSlice a sl0 s).1.line_stride * effectiveHeight a s.height *
        s.depth * a.nr_samples := by
  cases hx : a.explicit_layout <;> cases hcm : a.crc_mode <;>
    simp_all [layoutStepSlice, panfrost_compute_checksum_size, hx, hafbc]

/- ------------------------------------------------------------------ -/
/- Helper lemmas: the level loop.                                     -/
/- ------------------------------------------------------------------ -/

theorem loopStates_shift (a : LayoutInitArgs) (l : Nat) (s : LoopState) :
    ∀ k, loopStates a l s (k + 1) = loopStates a (l + 1) ((layoutStep a l s).2) k := by
  intro k
  induction k with
  | zero => rfl
  | succ n ih =>
      show (layoutStep a (l + (n + 1)) (loopStates a l s (n + 1))).2 =
        (layoutStep a (l + 1 + n) (loopStates a (l + 1) ((layoutStep a l s).2) n)).2
      rw [ih]
      have hidx : l + (n + 1) = l + 1 + n := by omega
      rw [hidx]

theorem layoutLoop_true_spec (a : LayoutInitArgs) :
    ∀ (r l : Nat) (s s' : LoopState), layoutLoop a r l s = (true, s') →
      s' = loopStates a l s r ∧
      ∀ k, k < r → (layoutStep a (l + k) (loopStates a l s k)).1 = true := by
  intro r
  induction r with
  | zero =>
      intro l s s' h
      simp only [layoutLoop, Prod.mk.injEq, true_and] at h
      exact ⟨h.symm, fun k hk => absurd hk (by omega)⟩
  | succ r ih =>
      intro l s s' h
      simp only [layoutLoop] at h
      by_cases hb : (layoutStep a l s).1 = true
      · rw [if_pos hb] at h
        obtain ⟨hs', hsteps⟩ := ih (l + 1) ((layoutStep a l s).2) s' h
        constructor
        · rw [hs', ← loopStates_shift]
        · intro k hk
          cases k with
          | zero => simpa using hb
          | succ n =>
              have h2 := hsteps n (by omega)
              rw [loopStates_shift]
              have hidx : l + (n + 1) = l + 1 + n := by omega
              rw [hidx]
              exact h2
      · rw [if_neg hb] at h
        simp at h

theorem loopStates_slices_length (a : LayoutInitArgs) (l : Nat) (s : LoopState) :
    ∀ k, (loopStates a l s k).layout.slices.length = s.layout.slices.length := by
  intro k
  induction k with
  | zero => rfl
  | succ n ih =>
      show ((layoutStep a (l + n) (loopStates a l s n)).2).layout.slices.length = _
      rw [layoutStep_slices_length, ih]

theorem loopStates_layout_dim (a : LayoutInitArgs) (l : Nat) (s : LoopState) :
    ∀ k, (loopStates a l s k).layout.dim = s.layout.dim := by
  intro k
  induction k with
  | zero => rfl
  | succ n ih =>
      show ((layoutStep a (l + n) (loopStates a l s n)).2).layout.dim = _
      rw [layoutStep_layout_dim, ih]

theorem loopStates_layout_modifier (a : LayoutInitArgs) (l : Nat) (s : LoopState) :
    ∀ k, (loopStates a l s k).layout.modifier = s.layout.modifier := by
  intro k
  induction k with
  | zero => rfl
  | succ n ih =>
      show ((layoutStep a (l + n) (loopStates a l s n)).2).layout.modifier = _
      rw [layoutStep_layout_modifier, ih]

theorem loopStates_dims (a : LayoutInitArgs) (l : Nat) (s : LoopState) (r : Nat)
    (H : ∀ k, k < r → (layoutStep a (l + k) (loopStates a l s k)).1 = true) :
    ∀ k, k ≤ r → (loopStates a l s k).width = mipSize s.width k ∧
      (loopStates a l s k).height = mipSize s.height k ∧
      (loopStates a l s k).depth = mipSize s.depth k := by
  intro k
  induction k with
  | zero => intro _; exact ⟨rfl, rfl, rfl⟩
  | succ n ih =>
      intro hk
      obtain ⟨hw, hh, hd⟩ := ih (by omega)
      have hst := H n (by omega)
      have hfail : layoutStepFails a (loopStates a l s n) = false := by
        rw [layoutStep_fst] at hst
        simpa using hst
      show ((layoutStep a (l + n) (loopStates a l s n)).2).width = _ ∧
        ((layoutStep a (l + n) (loopStates a l s n)).2).height = _ ∧
        ((layoutStep a (l + n) (loopStates a l s n)).2).depth = _
      rw [layoutStep_snd_of_ok _ _ _ hfail]
      exact ⟨by simp [mipSize, hw], by simp [mipSize, hh], by simp [mipSize, hd]⟩

theorem loopStates_written (a : LayoutInitArgs) (l : Nat) (s : LoopState) (r : Nat)
    (H : ∀ k, k < r → (layoutStep a (l + k) (loopStates a l s k)).1 = true)
    (hlen : l + r ≤ s.layout.slices.length) :
    ∀ k, k < r →
      getSlice (loopStates a l s (k + 1)).layout (l + k) =
        (layoutStepSlice a (getSlice (loopStates a l s k).layout (l + k))
          (loopStates a l s k)).1 ∧
      (loopStates a l s (k + 1)).offset =
        (layoutStepSlice a (getSlice (loopStates a l s k).layout (l + k))
          (loopStates a l s k)).2.1 := by
  intro k hk
  have hst := H k hk
  have hfail : layoutStepFails a (loopStates a l s k) = false := by
    rw [layoutStep_fst] at hst
    simpa using hst
  have hlen2 : l + k < (loopStates a l s k).layout.slices.length := by
    rw [loopStates_slices_length]
    omega
  constructor
  · show getSlice ((layoutStep a (l + k) (loopStates a l s k)).2).layout (l + k) = _
    rw [layoutStep_snd_of_ok _ _ _ hfail]
    exact getSlice_setSlice_self _ _ _ hlen2
  · show ((layoutStep a (l + k) (loopStates a l s k)).2).offset = _
    rw [layoutStep_snd_of_ok _ _ _ hfail]

theorem loopStates_stable (a : LayoutInitArgs) (l : Nat) (s : LoopState) (k i : Nat)
    (hi : i < l + k) :
    ∀ m, k ≤ m →
      getSlice (loopStates a l s m).layout i = getSlice (loopStates a l s k).layout i := by
  intro m
  induction m with
  | zero =>
      intro hm
      have hk0 : k = 0 := by omega
      subst hk0
      rfl
  | succ n ih =>
      intro hm
      rcases Nat.lt_or_ge k (n + 1) with h1 | h2
      · rw [← ih (by omega)]
        show getSlice ((layoutStep a (l + n) (loopStates a l s n)).2).layout i = _
        exact layoutStep_getSlice_ne _ _ _ _ (by omega)
      · have hk : k = n + 1 := by omega
        subst hk
        rfl

theorem layoutLoop_none_true (a : LayoutInitArgs) (hx : a.explicit_layout = none) :
    ∀ (r l : Nat) (s : LoopState), (layoutLoop a r l s).1 = true := by
  intro r
  induction r with
  | zero => intro l s; rfl
  | succ n ih =>
      intro l s
      have hfail : layoutStepFails a s = false := by simp [layoutStepFails, hx]
      have h1 : (layoutStep a l s).1 = true := by
        rw [layoutStep_fst, hfail]
        rfl
      simp only [layoutLoop, h1, if_true]
      exact ih (l + 1) _

theorem layoutLoop_layout_dim (a : LayoutInitArgs) :
    ∀ (r l : Nat) (s : LoopState), ((layoutLoop a r l s).2).layout.dim = s.layout.dim := by
  intro r
  induction r with
  | zero => intro l s; rfl
  | succ n ih =>
      intro l s
      simp only [layoutLoop]
      by_cases hb : (layoutStep a l s).1 = true
      · rw [if_pos hb, ih, layoutStep_layout_dim]
      · rw [if_neg hb, layoutStep_layout_dim]

theorem layoutLoop_layout_modifier (a : LayoutInitArgs) :
    ∀ (r l : Nat) (s : LoopState),
      ((layoutLoop a r l s).2).layout.modifier = s.layout.modifier := by
  intro r
  induction r with
  | zero => intro l s; rfl
  | succ n ih =>
      intro l s
      simp only [layoutLoop]
      by_cases hb : (layoutStep a l s).1 = true
      · rw [if_pos hb, ih, layoutStep_layout_modifier]
      · rw [if_neg hb, layoutStep_layout_modifier]

theorem pan_image_layout_init_true_parts (layout0 : pan_image_layout)
    (modifier : DrmModifier) (format : pipe_format) (dim : mali_texture_dimension)
    (w h d asz ns nsl : Nat) (crc : pan_image_crc_mode)
    (ex : Option pan_image_explicit_layout)
    (hok : (pan_image_layout_init layout0 modifier format dim w h d asz ns nsl crc ex).1 = true) :
    explicitReject1 dim d asz ns nsl crc ex = false ∧
    explicitReject2 ex = false ∧
    (layoutLoop (layoutInitArgs modifier format dim w h d asz ns nsl crc ex) nsl 0
      (layoutInitStartState layout0 modifier format dim w h d asz ns nsl crc ex)).1 = true ∧
    (pan_image_layout_init layout0 modifier format dim w h d asz ns nsl crc ex).2 =
      { (layoutLoop (layoutInitArgs modifier format dim w h d asz ns nsl crc ex) nsl 0
          (layoutInitStartState layout0 modifier format dim w h d asz ns nsl crc ex)).2.layout with
        array_stride := ALIGN_POT
          (layoutLoop (layoutInitArgs modifier format dim w h d asz ns nsl crc ex) nsl 0
            (layoutInitStartState layout0 modifier format dim w h d asz ns nsl crc ex)).2.offset 64
        data_size :=
          match ex with
          | some _ =>
              (layoutLoop (layoutInitArgs modifier format dim w h d asz ns nsl crc ex) nsl 0
                (layoutInitStartState layout0 modifier format dim w h d asz ns nsl crc ex)).2.offset
          | none =>
              ALIGN_POT
                (ALIGN_POT
                  (layoutLoop (layoutInitArgs modifier format dim w h d asz ns nsl crc ex) nsl 0
                    (layoutInitStartState layout0 modifier format dim w h d asz ns nsl crc
                      ex)).2.offset 64 * asz) 4096
        crc_size :=
          (layoutLoop (layoutInitArgs modifier format dim w h d asz ns nsl crc ex) nsl 0
            (layoutInitStartState layout0 modifier format dim w h d asz ns nsl crc
              ex)).2.oob_crc_offset } := by
  unfold pan_image_layout_init at hok ⊢
  by_cases h1 : explicitReject1 dim d asz ns nsl crc ex = true
  · rw [if_pos h1] at hok
    simp at hok
  · rw [if_neg h1] at hok ⊢
    by_cases h2 : explicitReject2 ex = true
    · rw [if_pos h2] at hok
      simp at hok
    · rw [if_neg h2] at hok ⊢
      by_cases h3 : (layoutLoop (layoutInitArgs modifier format dim w h d asz ns nsl crc ex)
          nsl 0 (layoutInitStartState layout0 modifier format dim w h d asz ns nsl crc ex)).1 =
          true
      · refine ⟨by simpa using h1, by simpa using h2, h3, ?_⟩
        simp only [h3, if_true]
        cases ex <;> rfl
      · rw [if_neg h3] at hok
        simp at hok

/- ------------------------------------------------------------------ -/
/- Claims.                                                            -/
/- ------------------------------------------------------------------ -/

/-- C7: for every pixel width and height (including zero), the checksum
region sizer returns row stride = ceiling(width/16) * 8 bytes and total
size = row stride * ceiling(height/16) (the vertical tile count); it is a
total, deterministic function with no failure mode. -/
theorem claim7_checksum (slice : pan_image_slice_layout) (w h : Nat) :
    (panfrost_compute_checksum_size slice w h).1.crc.stride = (w + 15) / 16 * 8 ∧
    (panfrost_compute_checksum_size slice w h).2 =
      (panfrost_compute_checksum_size slice w h).1.crc.stride * ((h + 15) / 16) := by
  simp [panfrost_compute_checksum_size, DIV_ROUND_UP, CHECKSUM_TILE_WIDTH,
    CHECKSUM_TILE_HEIGHT, CHECKSUM_BYTES_PER_TILE]

/-- C6 counterexample: the claim says that for non-compressed 3D layouts the
sample index maps to the array axis (address = base + offset +
sample * arrayStride + layer * surfaceStride).  On an accepted 3D linear
layout with a nonzero array stride, the resolver called with sample = 1
does not produce that address: the code uses array index 0 for 3D and
ignores the sample. -/
theorem claim6_counterexample :
    (pan_image_layout_init { slices := [{}] } .linear ⟨1, false⟩ .dim_3d 1 2 2 1 1 1
        .crc_none none).1 = true ∧
    drm_is_afbc (pan_image_layout_init { slices := [{}] } .linear ⟨1, false⟩ .dim_3d 1 2 2 1 1 1
        .crc_none none).2.modifier = false ∧
    (pan_image_layout_init { slices := [{}] } .linear ⟨1, false⟩ .dim_3d 1 2 2 1 1 1
        .crc_none none).2.dim = .dim_3d ∧
    pan_iview_get_surface
        ⟨(pan_image_layout_init { slices := [{}] } .linear ⟨1, false⟩ .dim_3d 1 2 2 1 1 1
            .crc_none none).2, 0, 0, 0⟩ 0 0 1 ≠
      .data (0 +
        (getSlice (pan_image_layout_init { slices := [{}] } .linear ⟨1, false⟩ .dim_3d 1 2 2
            1 1 1 .crc_none none).2 0).offset +
        1 * (pan_image_layout_init { slices := [{}] } .linear ⟨1, false⟩ .dim_3d 1 2 2 1 1 1
            .crc_none none).2.array_stride +
        0 * (getSlice (pan_image_layout_init { slices := [{}] } .linear ⟨1, false⟩ .dim_3d
            1 2 2 1 1 1 .crc_none none).2 0).surface_stride) := by
  decide

/-- C6 (amended): for every non-compressed layout the resolver returns
data address = base + level offset + arraySlot * arrayStride +
surfaceIndex * surfaceStride, where for 3D images the array slot is 0 (the
sample index is ignored; the claimed sample-to-array mapping only matches
under the precondition sample = 0) and the surface index is the layer,
and otherwise the array slot is the layer and the surface index the
sample; consecutive layers are separated by exactly arrayStride for non-3D
images (and by the level's surfaceStride for 3D images). -/
theorem claim6_amended (lay : pan_image_layout) (b fl fy level layer sample : Nat)
    (hafbc : drm_is_afbc lay.modifier = false) :
    pan_iview_get_surface ⟨lay, b, fl, fy⟩ level layer sample =
      .data (b + (getSlice lay (level + fl)).offset +
        (if lay.dim = .dim_3d then 0 else layer + fy) * lay.array_stride +
        (if lay.dim = .dim_3d then layer + fy else sample) *
          (getSlice lay (level + fl)).surface_stride) ∧
    surfHeaderAddr (pan_iview_get_surface ⟨lay, b, fl, fy⟩ level (layer + 1) sample) =
      surfHeaderAddr (pan_iview_get_surface ⟨lay, b, fl, fy⟩ level layer sample) +
        (if lay.dim = .dim_3d then (getSlice lay (level + fl)).surface_stride
         else lay.array_stride) := by
  by_cases hdim : lay.dim = .dim_3d <;>
    · simp [pan_iview_get_surface, panfrost_texture_offset, surfHeaderAddr, hafbc, hdim]
      constructor
      · ring
      · ring

/-- C9 counterexample: the claim says the per-depth-slice stride of a 3D
layout equals the layout's array stride.  On an accepted 3D linear layout
with two depth slices, `panfrost_get_layer_stride` returns the level's
surface stride (128), not the array stride (256). -/
theorem claim9_counterexample :
    (pan_image_layout_init { slices := [{}] } .linear ⟨1, false⟩ .dim_3d 1 2 2 1 1 1
        .crc_none none).1 = true ∧
    (pan_image_layout_init { slices := [{}] } .linear ⟨1, false⟩ .dim_3d 1 2 2 1 1 1
        .crc_none none).2.dim = .dim_3d ∧
    panfrost_get_layer_stride
        (pan_image_layout_init { slices := [{}] } .linear ⟨1, false⟩ .dim_3d 1 2 2 1 1 1
          .crc_none none).2 0 ≠
      (pan_image_layout_init { slices := [{}] } .linear ⟨1, false⟩ .dim_3d 1 2 2 1 1 1
          .crc_none none).2.array_stride := by
  decide

/-- C9 (amended): for 3D layouts the per-depth-slice stride used when
addressing surfaces is the level's surface stride (the AFBC surface stride
for block-compressed layouts), not the array stride; the resolver's
consecutive-depth-slice addresses differ by exactly
`panfrost_get_layer_stride` (the array stride is the layer stride only for
non-3D layouts). -/
theorem claim9_amended (lay : pan_image_layout) (b level layer : Nat)
    (h3d : lay.dim = .dim_3d) :
    panfrost_get_layer_stride lay level =
      (if drm_is_afbc lay.modifier then (getSlice lay level).afbc.surface_stride
       else (getSlice lay level).surface_stride) ∧
    surfHeaderAddr (pan_iview_get_surface ⟨lay, b, 0, 0⟩ level (layer + 1) 0) =
      surfHeaderAddr (pan_iview_get_surface ⟨lay, b, 0, 0⟩ level layer 0) +
        panfrost_get_layer_stride lay level := by
  by_cases hafbc : drm_is_afbc lay.modifier = true <;>
    · simp_all [panfrost_get_layer_stride, pan_iview_get_surface, surfHeaderAddr,
        panfrost_texture_offset, h3d]
      ring

/-- C6 witness: the amended resolver equations at a concrete
non-compressed layout and view. -/
theorem claim6_witness :
    pan_iview_get_surface ⟨{ dim := .dim_2d, array_stride := 7, slices := [{ offset := 3, surface_stride := 5 }] }, 100, 0, 0⟩ 0 2 1 =
      .data (100 +
        (getSlice { dim := .dim_2d, array_stride := 7, slices := [{ offset := 3, surface_stride := 5 }] } (0 + 0)).offset +
        (if ({ dim := .dim_2d, array_stride := 7, slices := [{ offset := 3, surface_stride := 5 }] } : pan_image_layout).dim = .dim_3d then 0 else 2 + 0) *
          ({ dim := .dim_2d, array_stride := 7, slices := [{ offset := 3, surface_stride := 5 }] } : pan_image_layout).array_stride +
        (if ({ dim := .dim_2d, array_stride := 7, slices := [{ offset := 3, surface_stride := 5 }] } : pan_image_layout).dim = .dim_3d then 2 + 0 else 1) *
          (getSlice { dim := .dim_2d, array_stride := 7, slices := [{ offset := 3, surface_stride := 5 }] } (0 + 0)).surface_stride) ∧
    surfHeaderAddr (pan_iview_get_surface ⟨{ dim := .dim_2d, array_stride := 7, slices := [{ offset := 3, surface_stride := 5 }] }, 100, 0, 0⟩ 0 (2 + 1) 1) =
      surfHeaderAddr (pan_iview_get_surface ⟨{ dim := .dim_2d, array_stride := 7, slices := [{ offset := 3, surface_stride := 5 }] }, 100, 0, 0⟩ 0 2 1) +
        (if ({ dim := .dim_2d, array_stride := 7, slices := [{ offset := 3, surface_stride := 5 }] } : pan_image_layout).dim = .dim_3d then
          (getSlice { dim := .dim_2d, array_stride := 7, slices := [{ offset := 3, surface_stride := 5 }] } (0 + 0)).surface_stride
         else ({ dim := .dim_2d, array_stride := 7, slices := [{ offset := 3, surface_stride := 5 }] } : pan_image_layout).array_stride) :=
  claim6_amended { dim := .dim_2d, array_stride := 7, slices := [{ offset := 3, surface_stride := 5 }] } 100 0 0 0 2 1 rfl

/-- C9 witness: the amended layer-stride equations at a concrete 3D
layout. -/
theorem claim9_witness :
    panfrost_get_layer_stride { dim := .dim_3d, array_stride := 7, slices := [{ surface_stride := 5 }] } 0 =
      (if drm_is_afbc ({ dim := .dim_3d, array_stride := 7, slices := [{ surface_stride := 5 }] } : pan_image_layout).modifier then
        (getSlice { dim := .dim_3d, array_stride := 7, slices := [{ surface_stride := 5 }] } 0).afbc.surface_stride
       else (getSlice { dim := .dim_3d, array_stride := 7, slices := [{ surface_stride := 5 }] } 0).surface_stride) ∧
    surfHeaderAddr (pan_iview_get_surface ⟨{ dim := .dim_3d, array_stride := 7, slices := [{ surface_stride := 5 }] }, 100, 0, 0⟩ 0 (0 + 1) 0) =
      surfHeaderAddr (pan_iview_get_surface ⟨{ dim := .dim_3d, array_stride := 7, slices := [{ surface_stride := 5 }] }, 100, 0, 0⟩ 0 0 0) +
        panfrost_get_layer_stride { dim := .dim_3d, array_stride := 7, slices := [{ surface_stride := 5 }] } 0 :=
  claim9_amended { dim := .dim_3d, array_stride := 7, slices := [{ surface_stride := 5 }] } 100 0 0 rfl

theorem explicitReject1_some_iff (dim : mali_texture_dimension)
    (d asz ns nsl : Nat) (crc : pan_image_crc_mode) (e : pan_image_explicit_layout) :
    explicitReject1 dim d asz ns nsl crc (some e) = true ↔
      (1 < d ∨ 1 < ns ∨ 1 < asz ∨ dim ≠ .dim_2d ∨ 1 < nsl ∨ crc = .crc_inband) := by
  simp [explicitReject1, Bool.or_eq_true, decide_eq_true_eq, bne_iff_ne, beq_iff_eq]
  tauto

theorem explicitReject2_some_iff (e : pan_image_explicit_layout) :
    explicitReject2 (some e) = true ↔ e.offset % 64 ≠ 0 := by
  simp [explicitReject2]

theorem layoutLoop_one_fst (a : LayoutInitArgs) (l : Nat) (s : LoopState) :
    (layoutLoop a 1 l s).1 = (layoutStep a l s).1 := by
  show ((let p := layoutStep a l s
         if p.1 then layoutLoop a 0 (l + 1) p.2 else (false, p.2)) : Bool × LoopState).1 = _
  by_cases hb : (layoutStep a l s).1 = true <;> simp [hb, layoutLoop]

theorem pan_image_layout_init_fst (layout0 : pan_image_layout) (modifier : DrmModifier)
    (format : pipe_format) (dim : mali_texture_dimension) (w h d asz ns nsl : Nat)
    (crc : pan_image_crc_mode) (ex : Option pan_image_explicit_layout) :
    (pan_image_layout_init layout0 modifier format dim w h d asz ns nsl crc ex).1 =
      (!explicitReject1 dim d asz ns nsl crc ex && !explicitReject2 ex &&
       (layoutLoop (layoutInitArgs modifier format dim w h d asz ns nsl crc ex) nsl 0
         (layoutInitStartState layout0 modifier format dim w h d asz ns nsl crc ex)).1) := by
  simp only [pan_image_layout_init]
  by_cases h1 : explicitReject1 dim d asz ns nsl crc ex = true
  · simp [h1]
  · have h1f : explicitReject1 dim d asz ns nsl crc ex = false := by simpa using h1
    by_cases h2 : explicitReject2 ex = true
    · simp [h1f, h2]
    · have h2f : explicitReject2 ex = false := by simpa using h2
      by_cases h3 : (layoutLoop (layoutInitArgs modifier format dim w h d asz ns nsl crc ex)
          nsl 0 (layoutInitStartState layout0 modifier format dim w h d asz ns nsl crc ex)).1 =
          true
      · simp [h1f, h2f, h3]
      · have h3f : (layoutLoop (layoutInitArgs modifier format dim w h d asz ns nsl crc ex)
            nsl 0 (layoutInitStartState layout0 modifier format dim w h d asz ns nsl crc
              ex)).1 = false := by simpa using h3
        simp [h1f, h2f, h3f]

/-- C1 counterexample: with levelCount = 0, an explicit layout whose line
stride (0) is below the minimum raw stride (4 bytes-per-pixel times
effective width 16) is nevertheless accepted, because the level loop never
runs; the claimed failure-iff-conditions equivalence is violated at this
input (the stride rejection condition holds but the call succeeds). -/
theorem claim1_counterexample :
    (pan_image_layout_init {} .linear ⟨4, false⟩ .dim_2d 16 16 1 1 1 0 .crc_none
        (some ⟨0, 0⟩)).1 = true ∧
    (0 : Nat) < util_format_get_blocksize ⟨4, false⟩ *
      effectiveWidth (layoutInitArgs .linear ⟨4, false⟩ .dim_2d 16 16 1 1 1 0 .crc_none
        (some ⟨0, 0⟩)) 16 := by
  decide

/-- C1 (amended): `pan_image_layout_init` returns failure iff an explicit
layout is supplied and at least one rejection condition holds: depth > 1,
sampleCount > 1, arrayCount > 1, dimension not 2D, levelCount > 1, inline
checksum mode, explicit byte offset not 64-byte aligned, or levelCount ≥ 1
together with an explicit line stride smaller than the minimum raw stride
(bytes-per-pixel times effective width).  The stride condition requires
levelCount ≥ 1 because with levelCount = 0 the level loop never runs and
the stride is never examined.  In particular, with no explicit layout the
function always returns success. -/
theorem claim1_amended (layout0 : pan_image_layout) (modifier : DrmModifier)
    (format : pipe_format) (dim : mali_texture_dimension) (w h d asz ns nsl : Nat)
    (crc : pan_image_crc_mode) (ex : Option pan_image_explicit_layout) :
    (pan_image_layout_init layout0 modifier format dim w h d asz ns nsl crc ex).1 = false ↔
      ∃ e, ex = some e ∧
        (1 < d ∨ 1 < ns ∨ 1 < asz ∨ dim ≠ .dim_2d ∨ 1 < nsl ∨ crc = .crc_inband ∨
         e.offset % 64 ≠ 0 ∨
         (1 ≤ nsl ∧ e.line_stride < util_format_get_blocksize format *
           effectiveWidth (layoutInitArgs modifier format dim w h d asz ns nsl crc ex) w)) := by
  rw [pan_image_layout_init_fst]
  cases ex with
  | none =>
      have hloop := layoutLoop_none_true
        (layoutInitArgs modifier format dim w h d asz ns nsl crc none) rfl nsl 0
        (layoutInitStartState layout0 modifier format dim w h d asz ns nsl crc none)
      simp [explicitReject1, explicitReject2, hloop]
  | some e =>
      by_cases h1 : explicitReject1 dim d asz ns nsl crc (some e) = true
      · simp only [h1, Bool.not_true, Bool.false_and]
        constructor
        · intro _
          refine ⟨e, rfl, ?_⟩
          rcases (explicitReject1_some_iff dim d asz ns nsl crc e).mp h1 with
            hh | hh | hh | hh | hh | hh <;> tauto
        · intro _
          trivial
      · have h1f : explicitReject1 dim d asz ns nsl crc (some e) = false := by simpa using h1
        rw [h1f]
        simp only [Bool.not_false, Bool.true_and]
        by_cases h2 : explicitReject2 (some e) = true
        · simp only [h2, Bool.not_true, Bool.false_and]
          constructor
          · intro _
            exact ⟨e, rfl, by
              have := (explicitReject2_some_iff e).mp h2
              tauto⟩
          · intro _
            trivial
        · have h2f : explicitReject2 (some e) = false := by simpa using h2
          rw [h2f]
          simp only [Bool.not_false, Bool.true_and]
          have hc1 : ¬(1 < d ∨ 1 < ns ∨ 1 < asz ∨ dim ≠ .dim_2d ∨ 1 < nsl ∨
              crc = .crc_inband) :=
            fun hc => h1 ((explicitReject1_some_iff dim d asz ns nsl crc e).mpr hc)
          push_neg at hc1
          obtain ⟨hd1, hns1, hasz1, hdim2, hnsl1, hcrc⟩ := hc1
          have hoff : e.offset % 64 = 0 := by
            by_contra hno
            exact h2 ((explicitReject2_some_iff e).mpr hno)
          have hnsl01 : nsl = 0 ∨ nsl = 1 := by omega
          rcases hnsl01 with rfl | rfl
          · constructor
            · intro hL
              exact absurd hL (by simp [layoutLoop])
            · rintro ⟨e1, he, hc⟩
              injection he with he'
              subst he'
              rcases hc with hh | hh | hh | hh | hh | hh | hh | ⟨hh, _⟩
              · exact absurd hh (by omega)
              · exact absurd hh (by omega)
              · exact absurd hh (by omega)
              · exact absurd hdim2 hh
              · exact absurd hh (by omega)
              · exact absurd hh hcrc
              · exact absurd hoff hh
              · exact absurd hh (by omega)
          · rw [layoutLoop_one_fst, layoutStep_fst]
            have hfeq : layoutStepFails
                (layoutInitArgs modifier format dim w h d asz ns 1 crc (some e))
                (layoutInitStartState layout0 modifier format dim w h d asz ns 1 crc
                  (some e)) =
                decide (e.line_stride < util_format_get_blocksize format *
                  effectiveWidth (layoutInitArgs modifier format dim w h d asz ns 1 crc
                    (some e)) w) := rfl
            rw [hfeq]
            by_cases hs : e.line_stride < util_format_get_blocksize format *
                effectiveWidth (layoutInitArgs modifier format dim w h d asz ns 1 crc
                  (some e)) w
            · rw [decide_eq_true hs]
              simp only [Bool.not_true]
              constructor
              · intro _
                exact ⟨e, rfl, by tauto⟩
              · intro _
                trivial
            · rw [decide_eq_false hs]
              simp only [Bool.not_false]
              constructor
              · intro hL
                simp at hL
              · rintro ⟨e1, he, hc⟩
                injection he with he'
                subst he'
                rcases hc with hh | hh | hh | hh | hh | hh | hh | ⟨_, hh⟩
                · exact absurd hh (by omega)
                · exact absurd hh (by omega)
                · exact absurd hh (by omega)
                · exact absurd hdim2 hh
                · exact absurd hh (by omega)
                · exact absurd hh hcrc
                · exact absurd hoff hh
                · exact absurd hh hs

/-- C2 counterexample: an explicit-layout call that passes the up-front
checks (offset 64 is aligned) but fails the in-loop minimum-stride check
(stride 0 < 1) returns failure with partial output: the scalar descriptor
fields and the first level's offset were already written, so the returned
layout differs from its pre-call value. -/
theorem claim2_counterexample :
    (pan_image_layout_init { slices := [{}] } .linear ⟨1, false⟩ .dim_2d 1 1 1 1 1 1
        .crc_none (some ⟨64, 0⟩)).1 = false ∧
    (pan_image_layout_init { slices := [{}] } .linear ⟨1, false⟩ .dim_2d 1 1 1 1 1 1
        .crc_none (some ⟨64, 0⟩)).2 ≠ { slices := [{}] } := by
  decide

/-- C2 (amended): failures from the two up-front validation checks
(explicit-layout compatibility and explicit-offset alignment) produce no
partial output: the layout is returned exactly as it was before the call.
The in-loop explicit-stride failure, by contrast, returns after the scalar
descriptor fields and the failing level's offset have been written. -/
theorem claim2_amended (layout0 : pan_image_layout) (modifier : DrmModifier)
    (format : pipe_format) (dim : mali_texture_dimension) (w h d asz ns nsl : Nat)
    (crc : pan_image_crc_mode) (e : pan_image_explicit_layout)
    (hrej : 1 < d ∨ 1 < ns ∨ 1 < asz ∨ dim ≠ .dim_2d ∨ 1 < nsl ∨ crc = .crc_inband ∨
      e.offset % 64 ≠ 0) :
    pan_image_layout_init layout0 modifier format dim w h d asz ns nsl crc (some e) =
      (false, layout0) := by
  unfold pan_image_layout_init
  by_cases h1 : explicitReject1 dim d asz ns nsl crc (some e) = true
  · rw [if_pos h1]
  · rw [if_neg h1]
    have h2 : explicitReject2 (some e) = true := by
      rcases hrej with hh | hh | hh | hh | hh | hh | hh
      · exact absurd ((explicitReject1_some_iff dim d asz ns nsl crc e).mpr (by tauto)) h1
      · exact absurd ((explicitReject1_some_iff dim d asz ns nsl crc e).mpr (by tauto)) h1
      · exact absurd ((explicitReject1_some_iff dim d asz ns nsl crc e).mpr (by tauto)) h1
      · exact absurd ((explicitReject1_some_iff dim d asz ns nsl crc e).mpr (by tauto)) h1
      · exact absurd ((explicitReject1_some_iff dim d asz ns nsl crc e).mpr (by tauto)) h1
      · exact absurd ((explicitReject1_some_iff dim d asz ns nsl crc e).mpr (by tauto)) h1
      · exact (explicitReject2_some_iff e).mpr hh
    rw [if_pos h2]

/-- C2 witness: a depth-2 explicit-layout call is rejected up front and
returns the input layout unchanged. -/
theorem claim2_witness :
    pan_image_layout_init {} .linear ⟨1, false⟩ .dim_2d 1 1 2 1 1 1 .crc_none
        (some ⟨0, 64⟩) = (false, {}) :=
  claim2_amended {} .linear ⟨1, false⟩ .dim_2d 1 1 2 1 1 1 .crc_none ⟨0, 64⟩
    (Or.inl (by decide))

/-- C8 counterexample: with inline checksum mode, the level size of a
linear 1x1 single-level image is line stride (64) plus the 8-byte checksum
region (72 total), not line stride times height (64); the claimed
level-size formula fails when the checksum is inline. -/
theorem claim8_counterexample :
    (pan_image_layout_init { slices := [{}] } .linear ⟨1, false⟩ .dim_2d 1 1 1 1 1 1
        .crc_inband none).1 = true ∧
    (getSlice (pan_image_layout_init { slices := [{}] } .linear ⟨1, false⟩ .dim_2d 1 1 1 1 1 1
        .crc_inband none).2 0).line_stride = 64 ∧
    (getSlice (pan_image_layout_init { slices := [{}] } .linear ⟨1, false⟩ .dim_2d 1 1 1 1 1 1
        .crc_inband none).2 0).size ≠
      (getSlice (pan_image_layout_init { slices := [{}] } .linear ⟨1, false⟩ .dim_2d 1 1 1 1 1
          1 .crc_inband none).2 0).line_stride * 1 := by
  decide

/-- On success, the level loop of an accepted call ran all levels: there is
a final state equal to the iterated step states, every step succeeded, and
the returned layout's slice array is the final state's. -/
theorem init_success_loop (layout0 : pan_image_layout) (modifier : DrmModifier)
    (format : pipe_format) (dim : mali_texture_dimension) (w h d asz ns nsl : Nat)
    (crc : pan_image_crc_mode) (ex : Option pan_image_explicit_layout)
    (hok : (pan_image_layout_init layout0 modifier format dim w h d asz ns nsl crc ex).1 =
      true) :
    (layoutLoop (layoutInitArgs modifier format dim w h d asz ns nsl crc ex) nsl 0
        (layoutInitStartState layout0 modifier format dim w h d asz ns nsl crc ex)).2 =
      loopStates (layoutInitArgs modifier format dim w h d asz ns nsl crc ex) 0
        (layoutInitStartState layout0 modifier format dim w h d asz ns nsl crc ex) nsl ∧
    (∀ k, k < nsl →
      (layoutStep (layoutInitArgs modifier format dim w h d asz ns nsl crc ex) k
        (loopStates (layoutInitArgs modifier format dim w h d asz ns nsl crc ex) 0
          (layoutInitStartState layout0 modifier format dim w h d asz ns nsl crc ex) k)).1 =
        true) ∧
    (pan_image_layout_init layout0 modifier format dim w h d asz ns nsl crc ex).2.slices =
      (layoutLoop (layoutInitArgs modifier format dim w h d asz ns nsl crc ex) nsl 0
        (layoutInitStartState layout0 modifier format dim w h d asz ns nsl crc
          ex)).2.layout.slices := by
  obtain ⟨-, -, hloop, hres⟩ := pan_image_layout_init_true_parts layout0 modifier format dim
    w h d asz ns nsl crc ex hok
  have hpair : layoutLoop (layoutInitArgs modifier format dim w h d asz ns nsl crc ex) nsl 0
      (layoutInitStartState layout0 modifier format dim w h d asz ns nsl crc ex) =
      (true, (layoutLoop (layoutInitArgs modifier format dim w h d asz ns nsl crc ex) nsl 0
        (layoutInitStartState layout0 modifier format dim w h d asz ns nsl crc ex)).2) := by
    rcases hq : layoutLoop (layoutInitArgs modifier format dim w h d asz ns nsl crc ex) nsl 0
      (layoutInitStartState layout0 modifier format dim w h d asz ns nsl crc ex) with ⟨b, sF⟩
    rw [hq] at hloop
    simp at hloop
    rw [hloop]
  obtain ⟨hst, hsteps⟩ := layoutLoop_true_spec
    (layoutInitArgs modifier format dim w h d asz ns nsl crc ex) nsl 0
    (layoutInitStartState layout0 modifier format dim w h d asz ns nsl crc ex) _ hpair
  refine ⟨hst, ?_, ?_⟩
  · intro k hk
    have := hsteps k hk
    simpa using this
  · rw [hres]

/-- On success, each slice of the returned layout equals the slice the loop
body computed from the state before its level, and the loop state's running
offset after that level is the one the body produced. -/
theorem init_success_slices (layout0 : pan_image_layout) (modifier : DrmModifier)
    (format : pipe_format) (dim : mali_texture_dimension) (w h d asz ns nsl : Nat)
    (crc : pan_image_crc_mode) (ex : Option pan_image_explicit_layout)
    (hok : (pan_image_layout_init layout0 modifier format dim w h d asz ns nsl crc ex).1 =
      true)
    (hlen : nsl ≤ layout0.slices.length) :
    ∀ k, k < nsl →
      getSlice (pan_image_layout_init layout0 modifier format dim w h d asz ns nsl crc
          ex).2 k =
        (layoutStepSlice (layoutInitArgs modifier format dim w h d asz ns nsl crc ex)
          (getSlice (loopStates (layoutInitArgs modifier format dim w h d asz ns nsl crc ex)
            0 (layoutInitStartState layout0 modifier format dim w h d asz ns nsl crc ex)
            k).layout k)
          (loopStates (layoutInitArgs modifier format dim w h d asz ns nsl crc ex) 0
            (layoutInitStartState layout0 modifier format dim w h d asz ns nsl crc ex)
            k)).1 ∧
      (loopStates (layoutInitArgs modifier format dim w h d asz ns nsl crc ex) 0
          (layoutInitStartState layout0 modifier format dim w h d asz ns nsl crc ex)
          (k + 1)).offset =
        (layoutStepSlice (layoutInitArgs modifier format dim w h d asz ns nsl crc ex)
          (getSlice (loopStates (layoutInitArgs modifier format dim w h d asz ns nsl crc ex)
            0 (layoutInitStartState layout0 modifier format dim w h d asz ns nsl crc ex)
            k).layout k)
          (loopStates (layoutInitArgs modifier format dim w h d asz ns nsl crc ex) 0
            (layoutInitStartState layout0 modifier format dim w h d asz ns nsl crc ex)
            k)).2.1 := by
  obtain ⟨hst, hsteps, hslices⟩ := init_success_loop layout0 modifier format dim w h d asz
    ns nsl crc ex hok
  intro k hk
  have hsteps' : ∀ j, j < nsl →
      (layoutStep (layoutInitArgs modifier format dim w h d asz ns nsl crc ex) (0 + j)
        (loopStates (layoutInitArgs modifier format dim w h d asz ns nsl crc ex) 0
          (layoutInitStartState layout0 modifier format dim w h d asz ns nsl crc ex)
          j)).1 = true := by
    intro j hj
    simpa using hsteps j hj
  have hlen' : 0 + nsl ≤ (layoutInitStartState layout0 modifier format dim w h d asz ns nsl
      crc ex).layout.slices.length := by
    simpa [layoutInitStartState] using hlen
  have hw := loopStates_written (layoutInitArgs modifier format dim w h d asz ns nsl crc ex)
    0 (layoutInitStartState layout0 modifier format dim w h d asz ns nsl crc ex) nsl
    hsteps' hlen' k hk
  have hstable := loopStates_stable (layoutInitArgs modifier format dim w h d asz ns nsl crc
    ex) 0 (layoutInitStartState layout0 modifier format dim w h d asz ns nsl crc ex)
    (k + 1) k (by omega) nsl (by omega)
  constructor
  · have h1 : getSlice (pan_image_layout_init layout0 modifier format dim w h d asz ns nsl
        crc ex).2 k =
        getSlice (layoutLoop (layoutInitArgs modifier format dim w h d asz ns nsl crc ex)
          nsl 0 (layoutInitStartState layout0 modifier format dim w h d asz ns nsl crc
            ex)).2.layout k := by
      unfold getSlice
      rw [hslices]
    rw [h1, hst, hstable]
    simpa using hw.1
  · simpa using hw.2

/-- On success, the loop state before level `k` carries the `k`-times
minified extent. -/
theorem init_success_dims (layout0 : pan_image_layout) (modifier : DrmModifier)
    (format : pipe_format) (dim : mali_texture_dimension) (w h d asz ns nsl : Nat)
    (crc : pan_image_crc_mode) (ex : Option pan_image_explicit_layout)
    (hok : (pan_image_layout_init layout0 modifier format dim w h d asz ns nsl crc ex).1 =
      true) :
    ∀ k, k ≤ nsl →
      (loopStates (layoutInitArgs modifier format dim w h d asz ns nsl crc ex) 0
          (layoutInitStartState layout0 modifier format dim w h d asz ns nsl crc ex)
          k).width = mipSize w k ∧
      (loopStates (layoutInitArgs modifier format dim w h d asz ns nsl crc ex) 0
          (layoutInitStartState layout0 modifier format dim w h d asz ns nsl crc ex)
          k).height = mipSize h k ∧
      (loopStates (layoutInitArgs modifier format dim w h d asz ns nsl crc ex) 0
          (layoutInitStartState layout0 modifier format dim w h d asz ns nsl crc ex)
          k).depth = mipSize d k := by
  obtain ⟨-, hsteps, -⟩ := init_success_loop layout0 modifier format dim w h d asz ns nsl
    crc ex hok
  have hsteps' : ∀ j, j < nsl →
      (layoutStep (layoutInitArgs modifier format dim w h d asz ns nsl crc ex) (0 + j)
        (loopStates (layoutInitArgs modifier format dim w h d asz ns nsl crc ex) 0
          (layoutInitStartState layout0 modifier format dim w h d asz ns nsl crc ex)
          j)).1 = true := by
    intro j hj
    simpa using hsteps j hj
  intro k hk
  have hd := loopStates_dims (layoutInitArgs modifier format dim w h d asz ns nsl crc ex) 0
    (layoutInitStartState layout0 modifier format dim w h d asz ns nsl crc ex) nsl
    hsteps' k hk
  simpa [layoutInitStartState] using hd

/-- C4: for every accepted configuration the array stride is the final
running offset aligned up to 64 bytes, hence a multiple of 64; without an
explicit layout the total allocation size equals array stride times
arrayCount aligned up to 4096 bytes, hence a multiple of 4096; with an
explicit layout the total allocation size equals the raw final running
offset with no alignment applied. -/
theorem claim4_strides (layout0 : pan_image_layout) (modifier : DrmModifier)
    (format : pipe_format) (dim : mali_texture_dimension) (w h d asz ns nsl : Nat)
    (crc : pan_image_crc_mode) (ex : Option pan_image_explicit_layout)
    (L : pan_image_layout) (fin : Nat)
    (hok : (pan_image_layout_init layout0 modifier format dim w h d asz ns nsl crc ex).1 =
      true)
    (hL : L = (pan_image_layout_init layout0 modifier format dim w h d asz ns nsl crc ex).2)
    (hfin : fin = (layoutLoop (layoutInitArgs modifier format dim w h d asz ns nsl crc ex)
      nsl 0 (layoutInitStartState layout0 modifier format dim w h d asz ns nsl crc
        ex)).2.offset) :
    L.array_stride = ALIGN_POT fin 64 ∧ 64 ∣ L.array_stride ∧
    L.data_size = Option.elim ex (ALIGN_POT (L.array_stride * asz) 4096) (fun _ => fin) ∧
    (ex = none → 4096 ∣ L.data_size) := by
  subst hL hfin
  obtain ⟨-, -, -, hres⟩ := pan_image_layout_init_true_parts layout0 modifier format dim w h
    d asz ns nsl crc ex hok
  refine ⟨?_, ?_, ?_, ?_⟩
  · rw [hres]
  · rw [hres]
    exact ALIGN_POT_dvd _ _
  · cases ex with
    | none =>
        rw [hres]
        rfl
    | some e =>
        rw [hres]
        rfl
  · intro hex
    subst hex
    rw [hres]
    exact ALIGN_POT_dvd _ _

/-- C4 witness: the stride and size equations at an accepted concrete
two-level linear configuration without explicit layout. -/
theorem claim4_witness :
    (pan_image_layout_init { slices := [{}, {}] } .linear ⟨1, false⟩ .dim_2d 4 4 1 1 1 2 .crc_none none).2.array_stride =
      ALIGN_POT (layoutLoop (layoutInitArgs .linear ⟨1, false⟩ .dim_2d 4 4 1 1 1 2 .crc_none none) 2 0 (layoutInitStartState { slices := [{}, {}] } .linear ⟨1, false⟩ .dim_2d 4 4 1 1 1 2 .crc_none none)).2.offset 64 ∧
    64 ∣ (pan_image_layout_init { slices := [{}, {}] } .linear ⟨1, false⟩ .dim_2d 4 4 1 1 1 2 .crc_none none).2.array_stride ∧
    (pan_image_layout_init { slices := [{}, {}] } .linear ⟨1, false⟩ .dim_2d 4 4 1 1 1 2 .crc_none none).2.data_size =
      ALIGN_POT ((pan_image_layout_init { slices := [{}, {}] } .linear ⟨1, false⟩ .dim_2d 4 4 1 1 1 2 .crc_none none).2.array_stride * 1) 4096 ∧
    4096 ∣ (pan_image_layout_init { slices := [{}, {}] } .linear ⟨1, false⟩ .dim_2d 4 4 1 1 1 2 .crc_none none).2.data_size := by
  have hmain := claim4_strides { slices := [{}, {}] } .linear ⟨1, false⟩ .dim_2d 4 4 1 1 1 2
    .crc_none none _ _ (by decide) rfl rfl
  exact ⟨hmain.1, hmain.2.1, hmain.2.2.1, hmain.2.2.2 rfl⟩

/-- C10: for every accepted configuration with at least one level and
enough slice storage, the first mip level's byte offset is 0 when no
explicit layout is supplied, and is the caller's byte offset unchanged
when an explicit layout is supplied (its 64-byte alignment was validated,
so the 64-byte alignment step is a no-op on it). -/
theorem claim10_level0_offset (layout0 : pan_image_layout) (modifier : DrmModifier)
    (format : pipe_format) (dim : mali_texture_dimension) (w h d asz ns nsl : Nat)
    (crc : pan_image_crc_mode) (ex : Option pan_image_explicit_layout)
    (L : pan_image_layout)
    (hok : (pan_image_layout_init layout0 modifier format dim w h d asz ns nsl crc ex).1 =
      true)
    (hnsl : 1 ≤ nsl) (hlen : nsl ≤ layout0.slices.length)
    (hL : L = (pan_image_layout_init layout0 modifier format dim w h d asz ns nsl crc ex).2) :
    (getSlice L 0).offset = Option.elim ex 0 (fun e => e.offset) := by
  subst hL
  have hsl := init_success_slices layout0 modifier format dim w h d asz ns nsl crc ex hok
    hlen 0 (by omega)
  rw [hsl.1, layoutStepSlice_offset]
  show ALIGN_POT (layoutInitStartState layout0 modifier format dim w h d asz ns nsl crc
    ex).offset 64 = _
  obtain ⟨-, hr2, -, -⟩ := pan_image_layout_init_true_parts layout0 modifier format dim w h
    d asz ns nsl crc ex hok
  cases ex with
  | none => simp [layoutInitStartState, ALIGN_POT]
  | some e =>
      have hmod : e.offset % 64 = 0 := by
        simpa [explicitReject2] using hr2
      exact ALIGN_POT_eq_of_dvd e.offset 64 (by omega) (Nat.dvd_of_mod_eq_zero hmod)

/-- C10 witness: the level-0 offset of an accepted two-level linear
configuration with no explicit layout is 0. -/
theorem claim10_witness :
    (getSlice (pan_image_layout_init { slices := [{}, {}] } .linear ⟨1, false⟩ .dim_2d 4 4 1
        1 1 2 .crc_none none).2 0).offset = 0 :=
  claim10_level0_offset { slices := [{}, {}] } .linear ⟨1, false⟩ .dim_2d 4 4 1 1 1 2
    .crc_none none _ (by decide) (by decide) (by decide) rfl

/-- C3: for every accepted configuration, per-level byte offsets (naturals,
hence non-negative) are monotonically non-decreasing across levels, the
byte ranges [offset, offset + size) of distinct levels never overlap
(stated for l < m; the symmetric case follows), and each level's offset is
the running offset aligned up to 64 bytes: level l+1's offset is the
64-byte alignment of level l's offset plus its size plus the front-loaded
3D-AFBC headers the running offset also advanced past. -/
theorem claim3_level_ranges (layout0 : pan_image_layout) (modifier : DrmModifier)
    (format : pipe_format) (dim : mali_texture_dimension) (w h d asz ns nsl : Nat)
    (crc : pan_image_crc_mode) (ex : Option pan_image_explicit_layout)
    (L : pan_image_layout) (l m : Nat)
    (hok : (pan_image_layout_init layout0 modifier format dim w h d asz ns nsl crc ex).1 =
      true)
    (hlen : nsl ≤ layout0.slices.length)
    (hlm : l + 1 ≤ m) (hm : m < nsl)
    (hL : L = (pan_image_layout_init layout0 modifier format dim w h d asz ns nsl crc ex).2) :
    (getSlice L l).offset ≤ (getSlice L m).offset ∧
    (getSlice L l).offset + (getSlice L l).size ≤ (getSlice L m).offset ∧
    (getSlice L (l + 1)).offset =
      ALIGN_POT ((getSlice L l).offset +
        afbc3dExtra (layoutInitArgs modifier format dim w h d asz ns nsl crc ex)
          (getSlice L l) + (getSlice L l).size) 64 := by
  subst hL
  have hsl := init_success_slices layout0 modifier format dim w h d asz ns nsl crc ex hok
    hlen
  set A := layoutInitArgs modifier format dim w h d asz ns nsl crc ex with hA
  set L := (pan_image_layout_init layout0 modifier format dim w h d asz ns nsl crc ex).2
    with hLdef
  set S0 := layoutInitStartState layout0 modifier format dim w h d asz ns nsl crc ex
    with hS0
  have key : ∀ k, k + 1 < nsl →
      (getSlice L (k + 1)).offset =
        ALIGN_POT ((getSlice L k).offset + afbc3dExtra A (getSlice L k) +
          (getSlice L k).size) 64 := by
    intro k hk1
    obtain ⟨hck, hoff⟩ := hsl k (by omega)
    obtain ⟨hck1, -⟩ := hsl (k + 1) hk1
    rw [hck1, layoutStepSlice_offset, hoff, layoutStepSlice_advance, hck,
      layoutStepSlice_offset]
  have mono : ∀ k, k + 1 < nsl →
      (getSlice L k).offset + (getSlice L k).size ≤ (getSlice L (k + 1)).offset ∧
      (getSlice L k).offset ≤ (getSlice L (k + 1)).offset := by
    intro k hk1
    rw [key k hk1]
    have hle := ALIGN_POT_le ((getSlice L k).offset + afbc3dExtra A (getSlice L k) +
      (getSlice L k).size) 64 (by omega)
    omega
  have iter : ∀ t, ∀ m', m' = l + 1 + t → m' < nsl →
      (getSlice L l).offset + (getSlice L l).size ≤ (getSlice L m').offset := by
    intro t
    induction t with
    | zero =>
        intro m' hm' hlt
        subst hm'
        exact (mono l (by omega)).1
    | succ t ih =>
        intro m' hm' hlt
        subst hm'
        have h1 := ih (l + 1 + t) rfl (by omega)
        have h2 := (mono (l + 1 + t) (by omega)).2
        have hidx : l + 1 + (t + 1) = l + 1 + t + 1 := by omega
        rw [hidx]
        omega
  have hfin := iter (m - (l + 1)) m (by omega) hm
  exact ⟨by omega, hfin, key l (by omega)⟩

/-- C3 witness: offsets, disjointness and the 64-byte chain equation at an
accepted concrete two-level linear configuration, levels 0 and 1. -/
theorem claim3_witness :
    (getSlice (pan_image_layout_init { slices := [{}, {}] } .linear ⟨1, false⟩ .dim_2d 4 4 1 1 1 2 .crc_none none).2 0).offset ≤
      (getSlice (pan_image_layout_init { slices := [{}, {}] } .linear ⟨1, false⟩ .dim_2d 4 4 1 1 1 2 .crc_none none).2 1).offset ∧
    (getSlice (pan_image_layout_init { slices := [{}, {}] } .linear ⟨1, false⟩ .dim_2d 4 4 1 1 1 2 .crc_none none).2 0).offset +
      (getSlice (pan_image_layout_init { slices := [{}, {}] } .linear ⟨1, false⟩ .dim_2d 4 4 1 1 1 2 .crc_none none).2 0).size ≤
      (getSlice (pan_image_layout_init { slices := [{}, {}] } .linear ⟨1, false⟩ .dim_2d 4 4 1 1 1 2 .crc_none none).2 1).offset ∧
    (getSlice (pan_image_layout_init { slices := [{}, {}] } .linear ⟨1, false⟩ .dim_2d 4 4 1 1 1 2 .crc_none none).2 (0 + 1)).offset =
      ALIGN_POT ((getSlice (pan_image_layout_init { slices := [{}, {}] } .linear ⟨1, false⟩ .dim_2d 4 4 1 1 1 2 .crc_none none).2 0).offset +
        afbc3dExtra (layoutInitArgs .linear ⟨1, false⟩ .dim_2d 4 4 1 1 1 2 .crc_none none)
          (getSlice (pan_image_layout_init { slices := [{}, {}] } .linear ⟨1, false⟩ .dim_2d 4 4 1 1 1 2 .crc_none none).2 0) +
        (getSlice (pan_image_layout_init { slices := [{}, {}] } .linear ⟨1, false⟩ .dim_2d 4 4 1 1 1 2 .crc_none none).2 0).size) 64 :=
  claim3_level_ranges { slices := [{}, {}] } .linear ⟨1, false⟩ .dim_2d 4 4 1 1 1 2
    .crc_none none _ 0 1 (by decide) (by decide) (by decide) (by decide) rfl

/-- C8 (amended): for every linear layout with no explicit layout, each
level's line stride is bytes-per-pixel times the level's (minified) width
rounded up to a multiple of 64, hence always a multiple of 64; and for a
single-level, single-layer (depth 1), single-sample such image whose
checksum mode is not inline, the level size equals that line stride times
the height.  (With an inline checksum the level size additionally includes
the checksum region, as the counterexample shows.) -/
theorem claim8_linear_stride (layout0 : pan_image_layout) (format : pipe_format)
    (dim : mali_texture_dimension) (w h d asz ns nsl : Nat) (crc : pan_image_crc_mode)
    (L : pan_image_layout) (l : Nat)
    (hok : (pan_image_layout_init layout0 .linear format dim w h d asz ns nsl crc none).1 =
      true)
    (hlen : nsl ≤ layout0.slices.length) (hl : l < nsl)
    (hL : L = (pan_image_layout_init layout0 .linear format dim w h d asz ns nsl crc
      none).2) :
    (getSlice L l).line_stride =
      ALIGN_POT (util_format_get_blocksize format * mipSize w l) 64 ∧
    64 ∣ (getSlice L l).line_stride ∧
    (l = 0 → d = 1 → ns = 1 → crc ≠ .crc_inband →
      (getSlice L 0).size = (getSlice L 0).line_stride * h) := by
  subst hL
  obtain ⟨hck, -⟩ := init_success_slices layout0 .linear format dim w h d asz ns nsl crc
    none hok hlen l hl
  obtain ⟨hw, hh, hd⟩ := init_success_dims layout0 .linear format dim w h d asz ns nsl crc
    none hok l (by omega)
  have hstride : (getSlice (pan_image_layout_init layout0 .linear format dim w h d asz ns
      nsl crc none).2 l).line_stride =
      ALIGN_POT (util_format_get_blocksize format * mipSize w l) 64 := by
    rw [hck, layoutStepSlice_line_stride_linear _ _ _ rfl rfl, hw]
    rfl
  refine ⟨hstride, ?_, ?_⟩
  · rw [hstride]
    exact ALIGN_POT_dvd _ _
  · intro hl0 hd1 hns1 hcrc
    subst hl0
    subst hd1
    subst hns1
    rw [hck, layoutStepSlice_size_plain
      (layoutInitArgs .linear format dim w h 1 asz 1 nsl crc none) _ _ rfl hcrc]
    rw [hh, hd]
    simp [loopStates, layoutInitStartState, layoutInitArgs, effectiveHeight,
      LayoutInitArgs.should_align, LayoutInitArgs.tiled, LayoutInitArgs.afbc,
      drm_is_afbc, mipSize]

/-- C8 witness: the line-stride and level-size equations at an accepted
concrete single-level 5x3 linear image with 3 bytes per pixel. -/
theorem claim8_witness :
    (getSlice (pan_image_layout_init { slices := [{}] } .linear ⟨3, false⟩ .dim_2d 5 3 1 1 1 1 .crc_none none).2 0).line_stride =
      ALIGN_POT (util_format_get_blocksize ⟨3, false⟩ * mipSize 5 0) 64 ∧
    64 ∣ (getSlice (pan_image_layout_init { slices := [{}] } .linear ⟨3, false⟩ .dim_2d 5 3 1 1 1 1 .crc_none none).2 0).line_stride ∧
    (getSlice (pan_image_layout_init { slices := [{}] } .linear ⟨3, false⟩ .dim_2d 5 3 1 1 1 1 .crc_none none).2 0).size =
      (getSlice (pan_image_layout_init { slices := [{}] } .linear ⟨3, false⟩ .dim_2d 5 3 1 1 1 1 .crc_none none).2 0).line_stride * 3 := by
  have hmain := claim8_linear_stride { slices := [{}] } ⟨3, false⟩ .dim_2d 5 3 1 1 1 1
    .crc_none _ 0 (by decide) (by decide) (by decide) rfl
  exact ⟨hmain.1, hmain.2.1, hmain.2.2 rfl rfl rfl (by decide)⟩

/-- C5: for every accepted 3D AFBC layout, at each level the total header
size equals the per-depth-slice header size (the AFBC surface stride)
times the level's effective depth; the Address Resolver returns
header address = base + level offset + layer * per-slice header stride and
body address = base + level offset + total per-level header size +
layer * body surface stride; consecutive depth slices' body addresses
differ by exactly the body surface stride; and (for in-range layers) all
headers lie contiguously at the level offset before all body data. -/
theorem claim5_afbc3d (layout0 : pan_image_layout) (modifier : DrmModifier)
    (format : pipe_format) (w h d asz ns nsl : Nat) (crc : pan_image_crc_mode)
    (ex : Option pan_image_explicit_layout) (L : pan_image_layout)
    (l b fl fy level layer sample : Nat)
    (hok : (pan_image_layout_init layout0 modifier format .dim_3d w h d asz ns nsl crc
      ex).1 = true)
    (hafbc : drm_is_afbc modifier = true)
    (hlen : nsl ≤ layout0.slices.length) (hl : l < nsl)
    (hlev : level + fl = l) (hld : layer + fy < mipSize d l)
    (hL : L = (pan_image_layout_init layout0 modifier format .dim_3d w h d asz ns nsl crc
      ex).2) :
    (getSlice L l).afbc.header_size =
      (getSlice L l).afbc.surface_stride * mipSize d l ∧
    pan_iview_get_surface ⟨L, b, fl, fy⟩ level layer sample =
      .afbc (b + (getSlice L l).offset +
          (layer + fy) * (getSlice L l).afbc.surface_stride)
        (b + (getSlice L l).offset + (getSlice L l).afbc.header_size +
          (getSlice L l).surface_stride * (layer + fy)) ∧
    surfBodyAddr (pan_iview_get_surface ⟨L, b, fl, fy⟩ level (layer + 1) sample) =
      surfBodyAddr (pan_iview_get_surface ⟨L, b, fl, fy⟩ level layer sample) +
        (getSlice L l).surface_stride ∧
    (layer + fy + 1) * (getSlice L l).afbc.surface_stride ≤
      (getSlice L l).afbc.header_size := by
  subst hL
  have hsl := init_success_slices layout0 modifier format .dim_3d w h d asz ns nsl crc ex
    hok hlen
  have hdims := init_success_dims layout0 modifier format .dim_3d w h d asz ns nsl crc ex
    hok
  obtain ⟨-, -, -, hres⟩ := pan_image_layout_init_true_parts layout0 modifier format
    .dim_3d w h d asz ns nsl crc ex hok
  set A := layoutInitArgs modifier format .dim_3d w h d asz ns nsl crc ex with hA
  set L := (pan_image_layout_init layout0 modifier format .dim_3d w h d asz ns nsl crc
    ex).2 with hLdef
  set S0 := layoutInitStartState layout0 modifier format .dim_3d w h d asz ns nsl crc ex
    with hS0
  obtain ⟨hck, -⟩ := hsl l hl
  obtain ⟨-, -, hdd⟩ := hdims l (by omega)
  have hAafbc : A.afbc = true := hafbc
  have hA3d : A.is_3d = true := rfl
  have hhdr := layoutStepSlice_afbc3d_header A (getSlice (loopStates A 0 S0 l).layout l)
    (loopStates A 0 S0 l) hAafbc hA3d
  have h1 : (getSlice L l).afbc.header_size =
      (getSlice L l).afbc.surface_stride * mipSize d l := by
    rw [hck, hhdr.1, hdd]
  have hLdim : L.dim = mali_texture_dimension.dim_3d := by
    rw [hres]
    show (layoutLoop A nsl 0 S0).2.layout.dim = _
    rw [layoutLoop_layout_dim]
    rfl
  have hLmod : drm_is_afbc L.modifier = true := by
    rw [hres]
    show drm_is_afbc (layoutLoop A nsl 0 S0).2.layout.modifier = true
    rw [layoutLoop_layout_modifier]
    exact hafbc
  have h2 : ∀ layer', pan_iview_get_surface ⟨L, b, fl, fy⟩ level layer' sample =
      .afbc (b + (getSlice L l).offset +
          (layer' + fy) * (getSlice L l).afbc.surface_stride)
        (b + (getSlice L l).offset + (getSlice L l).afbc.header_size +
          (getSlice L l).surface_stride * (layer' + fy)) := by
    intro layer'
    have hlev' : level + fl = l := hlev
    simp [pan_iview_get_surface, hLdim, hLmod, hlev']
  refine ⟨h1, h2 layer, ?_, ?_⟩
  · rw [h2 (layer + 1), h2 layer]
    simp [surfBodyAddr]
    ring
  · have hstep : layer + fy + 1 ≤ mipSize d l := by omega
    have hmul := Nat.mul_le_mul_right ((getSlice L l).afbc.surface_stride) hstep
    rw [h1, Nat.mul_comm ((getSlice L l).afbc.surface_stride) (mipSize d l)]
    exact hmul

/-- C5 witness: the 3D AFBC header/body address equations at an accepted
concrete 16x16x2 AFBC image, level 0, depth slices 0 and 1. -/
theorem claim5_witness :
    (getSlice (pan_image_layout_init { slices := [{}] } (.afbc .sz16x16 false false) ⟨4, false⟩ .dim_3d 16 16 2 1 1 1 .crc_none none).2 0).afbc.header_size =
      (getSlice (pan_image_layout_init { slices := [{}] } (.afbc .sz16x16 false false) ⟨4, false⟩ .dim_3d 16 16 2 1 1 1 .crc_none none).2 0).afbc.surface_stride * mipSize 2 0 ∧
    pan_iview_get_surface ⟨(pan_image_layout_init { slices := [{}] } (.afbc .sz16x16 false false) ⟨4, false⟩ .dim_3d 16 16 2 1 1 1 .crc_none none).2, 0, 0, 0⟩ 0 0 0 =
      .afbc (0 + (getSlice (pan_image_layout_init { slices := [{}] } (.afbc .sz16x16 false false) ⟨4, false⟩ .dim_3d 16 16 2 1 1 1 .crc_none none).2 0).offset +
          (0 + 0) * (getSlice (pan_image_layout_init { slices := [{}] } (.afbc .sz16x16 false false) ⟨4, false⟩ .dim_3d 16 16 2 1 1 1 .crc_none none).2 0).afbc.surface_stride)
        (0 + (getSlice (pan_image_layout_init { slices := [{}] } (.afbc .sz16x16 false false) ⟨4, false⟩ .dim_3d 16 16 2 1 1 1 .crc_none none).2 0).offset +
          (getSlice (pan_image_layout_init { slices := [{}] } (.afbc .sz16x16 false false) ⟨4, false⟩ .dim_3d 16 16 2 1 1 1 .crc_none none).2 0).afbc.header_size +
          (getSlice (pan_image_layout_init { slices := [{}] } (.afbc .sz16x16 false false) ⟨4, false⟩ .dim_3d 16 16 2 1 1 1 .crc_none none).2 0).surface_stride * (0 + 0)) ∧
    surfBodyAddr (pan_iview_get_surface ⟨(pan_image_layout_init { slices := [{}] } (.afbc .sz16x16 false false) ⟨4, false⟩ .dim_3d 16 16 2 1 1 1 .crc_none none).2, 0, 0, 0⟩ 0 (0 + 1) 0) =
      surfBodyAddr (pan_iview_get_surface ⟨(pan_image_layout_init { slices := [{}] } (.afbc .sz16x16 false false) ⟨4, false⟩ .dim_3d 16 16 2 1 1 1 .crc_none none).2, 0, 0, 0⟩ 0 0 0) +
        (getSlice (pan_image_layout_init { slices := [{}] } (.afbc .sz16x16 false false) ⟨4, false⟩ .dim_3d 16 16 2 1 1 1 .crc_none none).2 0).surface_stride ∧
    (0 + 0 + 1) * (getSlice (pan_image_layout_init { slices := [{}] } (.afbc .sz16x16 false false) ⟨4, false⟩ .dim_3d 16 16 2 1 1 1 .crc_none none).2 0).afbc.surface_stride ≤
      (getSlice (pan_image_layout_init { slices := [{}] } (.afbc .sz16x16 false false) ⟨4, false⟩ .dim_3d 16 16 2 1 1 1 .crc_none none).2 0).afbc.header_size :=
  claim5_afbc3d { slices := [{}] } (.afbc .sz16x16 false false) ⟨4, false⟩ 16 16 2 1 1 1
    .crc_none none _ 0 0 0 0 0 0 0 (by decide) rfl (by decide) (by decide) rfl (by decide)
    rfl
